import Mathlib

/-!
Shallow embedding of `src/index.py` (a Telegram content/push bot).

The program keeps a process-wide dict `user_states` from user id to
`{'state': ..., 'data': {...}}`, and `handle_message` dispatches one incoming
text message on the user's current state, mutating the store and sending
replies.  We model the store as a function `Nat → Option UserState`, the
per-user answer dict as an association list with Python dict get/set
semantics, and one call of `handle_message` as a pure function from an
environment (the outcomes of the external calls: Google-services init,
catalog fetch, Drive link resolution, the random choice, and the DeepSeek
generation result) to the new store plus the list of reply texts sent, in
order.  Reply keyboards carry no claim-relevant data beyond the
`get_unique_values` results, which are modelled directly; `reply_text`
itself is modelled as always succeeding.
-/

set_option autoImplicit false

namespace TextBot

/-- One row of the Google-Sheet catalog, as returned by `get_all_records`:
the five facet columns, the `text` column, and the optional `image_id`
column (`none` models a row with no such key, `some ""` an empty cell). -/
structure ContentRecord where
  audience : String
  language : String
  country : String
  topic : String
  format : String
  text : String
  image_id : Option String
deriving DecidableEq, Inhabited

/-- A Python dict from string keys to string values (the per-user `data`
dict), as an association list without duplicate-key insertion. -/
abbrev Data := List (String × String)

/-- Python `d[k]` lookup: `some v` if the key is present, `none` for a
`KeyError`. -/
def dget : Data → String → Option String
  | [], _ => none
  | (k, v) :: rest, key => if k = key then some v else dget rest key

/-- Python `d[k] = v`: overwrite the binding if the key is present,
otherwise append it. -/
def dset : Data → String → String → Data
  | [], k, v => [(k, v)]
  | (k2, v2) :: rest, k, v =>
    if k2 = k then (k, v) :: rest else (k2, v2) :: dset rest k v

/-- One entry of `user_states`: the `'state'` field (`none` right after
`/start`) and the `'data'` dict of collected answers. -/
structure UserState where
  state : Option String
  data : Data
deriving DecidableEq

/-- The global `user_states` dict, keyed by Telegram user id. -/
def Store : Type := Nat → Option UserState

/-- Python `user_states[u] = v`. -/
def storeSet (s : Store) (u : Nat) (v : UserState) : Store :=
  fun u2 => if u2 = u then some v else s u2

/-- Python `del user_states[u]`. -/
def storeDel (s : Store) (u : Nat) : Store :=
  fun u2 => if u2 = u then none else s u2

/-- Outcomes of the external calls made while handling one message:
whether `init_google_services` raises, whether `sheet.get_all_records`
raises, the records it returns otherwise, the Drive `webViewLink` per file
id (`none` models the `files().get` call raising), the index drawn by
`random.choice`, and what `generate_push_notifications` returns. -/
structure Env where
  initExc : Bool
  recordsExc : Bool
  records : List ContentRecord
  driveLink : String → Option String
  choice : Nat
  genResult : Option String

/-- State constant `AUDIENCE` from the source. -/
def AUDIENCE : String := "AUDIENCE"

/-- State constant `LANGUAGE` from the source. -/
def LANGUAGE : String := "LANGUAGE"

/-- State constant `COUNTRY` from the source. -/
def COUNTRY : String := "COUNTRY"

/-- State constant `TOPIC` from the source. -/
def TOPIC : String := "TOPIC"

/-- State constant `FORMAT` from the source. -/
def FORMAT : String := "FORMAT"

/-- Model of `get_unique_values(sheet, column_name)`: on a fetch error return `[]`;
otherwise `sorted(list(set(record[column_name] for record in records if
record[column_name])))` — the truthiness test drops empty-string cells, the
set drops duplicates, and the result is sorted. -/
def get_unique_values (recordsExc : Bool) (records : List ContentRecord)
    (col : ContentRecord → String) : List String :=
  if recordsExc then []
  else List.insertionSort (· ≤ ·) (((records.map col).filter (fun v => v ≠ "")).dedup)

/-- Outcome of the DeepSeek HTTP call inside `generate_push_notifications`:
success with the returned content, a `requests.RequestException` (network
error, timeout, or non-2xx via `raise_for_status`), or any other exception
(e.g. a malformed JSON response missing `choices`). -/
inductive GenOutcome where
  | success (content : String)
  | requestError
  | otherError
deriving DecidableEq

/-- Model of `generate_push_notifications`: returns the content on success;
both `except` arms log and return `None`. -/
def generate_push_notifications : GenOutcome → Option String
  | .success content => some content
  | .requestError => none
  | .otherError => none

/-- Message sent to a user with no entry in `user_states`. -/
def restartMsg : String :=
  "Please start over with /start\nIf you need help, use /help command."

/-- Message of the outermost `except` in `handle_message`. -/
def genericErrMsg : String := "An error occurred. Please try again with /start"

/-- Message of the `except` around the FORMAT (terminal Flow-A) step. -/
def formatErrMsg : String :=
  "An error occurred while getting content.\nPlease try again with /start"

/-- Reply when no catalog row matches all five collected facets. -/
def noContentMsg : String :=
  "Sorry, no content found matching your criteria. Try different options."

/-- Prompt sent when entering the AUDIENCE step. -/
def audiencePrompt : String := "Please select your audience:"

/-- Prompt sent when entering the LANGUAGE step. -/
def languagePrompt : String := "Great! Now select the language:"

/-- Prompt sent when entering the COUNTRY step. -/
def countryPrompt : String := "Perfect! Choose the country:"

/-- Prompt sent when entering the TOPIC step. -/
def topicPrompt : String := "Choose the topic:"

/-- Prompt sent when entering the FORMAT step. -/
def formatPrompt : String := "Finally, choose the format:"

/-- Prompt sent when entering the awaiting_product step. -/
def productPrompt : String := "What's your product name?"

/-- Prompt sent when entering the awaiting_country step. -/
def pushCountryPrompt : String := "Which country are you targeting?"

/-- Prompt sent when entering the awaiting_language step. -/
def pushLanguagePrompt : String := "What language should the copy be in?"

/-- Prompt sent when entering the awaiting_link step. -/
def pushLinkPrompt : String := "Please provide the App Store/Google Play link:"

/-- Prompt sent when entering the awaiting_message step. -/
def pushMessagePrompt : String := "What message do you want to convey?"

/-- Progress message sent before calling the generator (the source file
literally contains the mojibake characters reproduced here). -/
def genWaitMsg : String := "ðŸ”„ Generating push notifications... Please wait."

/-- Fallback sent when the generator returns a falsy result. -/
def genFailMsg : String :=
  "ðŸ˜• Sorry, couldn't generate push notifications.\nPlease try again with /start"

/-- Message of the `except` around the awaiting_message (terminal Flow-B)
step. -/
def genErrMsg : String :=
  "An error occurred while generating notifications.\nPlease try again with /start"

/-- Follow-up sent after successfully delivered push content. -/
def genMoreMsg : String := "Want to generate more push notifications? Type /start"

/-- The chunking expression `[response[i:i + 4096] for i in range(0,
len(response), 4096)]`, over the character list of the message. -/
def chunkList : List Char → List (List Char)
  | [] => []
  | c :: cs => (c :: cs).take 4096 :: chunkList ((c :: cs).drop 4096)
termination_by l => l.length
decreasing_by
  simp only [List.length_drop]
  simp only [List.length_cons]
  omega

/-- Sending one response body: split into 4096-character chunks when it is
longer than 4096 characters, otherwise send it as a single message.  Both
chunking sites of `handle_message` (FORMAT and awaiting_message) use this
logic verbatim. -/
def sendLong (s : String) : List String :=
  if s.length > 4096 then (chunkList s.data).map (fun l => String.mk l) else [s]

/-- Concatenation of the sent chunks, in order. -/
def concatChunks (parts : List String) : String :=
  parts.foldr (fun p acc => p ++ acc) ""

/-- The response text built for a matching record: `"Here's your
content:\n\n"` plus its `text`, and, when the row has a truthy `image_id`
and the Drive call succeeds, the `webViewLink` suffix; a Drive failure is
caught and the link silently omitted. -/
def contentResponse (env : Env) (r : ContentRecord) : String :=
  let response := "Here's your content:\n\n" ++ r.text
  match r.image_id with
  | none => response
  | some fid =>
    if fid = "" then response
    else
      match env.driveLink fid with
      | some link => response ++ "\n\nImage: " ++ link
      | none => response

/-- The matching predicate of the FORMAT-step list comprehension for one
record, with Python's left-to-right short-circuit evaluation: each
`user_data[key]` lookup can raise `KeyError` (`none`), and a conjunct that
compares unequal stops evaluation with `False`. -/
def recMatches (d : Data) (r : ContentRecord) : Option Bool :=
  match dget d "audience" with
  | none => none
  | some a =>
    if r.audience = a then
      match dget d "language" with
      | none => none
      | some l =>
        if r.language = l then
          match dget d "country" with
          | none => none
          | some c =>
            if r.country = c then
              match dget d "topic" with
              | none => none
              | some t =>
                if r.topic = t then
                  match dget d "format" with
                  | none => none
                  | some f => some (decide (r.format = f))
                else some false
            else some false
        else some false
    else some false

/-- The FORMAT-step list comprehension `[record for record in all_records
if record[...] == user_data[...] and ...]`: records are tested left to
right and a `KeyError` in any test aborts the whole comprehension. -/
def matchList (d : Data) : List ContentRecord → Option (List ContentRecord)
  | [] => some []
  | r :: rs =>
    match recMatches d r with
    | none => none
    | some b =>
      match matchList d rs with
      | none => none
      | some rest => some (if b then r :: rest else rest)

/-- Replies of the FORMAT (terminal Flow-A) step body: any exception
(`init_google_services`, `get_all_records`, or a `KeyError` on a collected
answer) is caught and yields the step's error message; otherwise the
records matching all five answers are filtered, and either the
no-content message or the (possibly chunked) content response is sent.
The `finally: del user_states[user_id]` is modelled at the call site. -/
def formatReplies (env : Env) (d : Data) (text : String) : List String :=
  if env.initExc then [formatErrMsg]
  else
    let d2 := dset d "format" text
    if env.recordsExc then [formatErrMsg]
    else
      match matchList d2 env.records with
      | none => [formatErrMsg]
      | some matching =>
        if matching.isEmpty then [noContentMsg]
        else sendLong (contentResponse env (matching.getD (env.choice % matching.length) default))

/-- Replies of the awaiting_message (terminal Flow-B) step body: the wait
message is sent first; then the executor arguments `user_data['product']`,
`['country']`, `['language']`, `['app_link']` are read (a `KeyError` is
caught by the step's `except` and yields its error message); then the
generator result is delivered chunked plus the follow-up when truthy, and
the fallback message otherwise.  The `finally` delete is modelled at the
call site. -/
def pushReplies (env : Env) (d : Data) (text : String) : List String :=
  let d2 := dset d "message" text
  match dget d2 "product", dget d2 "country", dget d2 "language", dget d2 "app_link" with
  | some _, some _, some _, some _ =>
    match env.genResult with
    | some content =>
      if content = "" then [genWaitMsg, genFailMsg]
      else genWaitMsg :: (sendLong content ++ [genMoreMsg])
    | none => [genWaitMsg, genFailMsg]
  | _, _, _, _ => [genWaitMsg, genErrMsg]

/-- One call of `handle_message` for a free-text message: returns the new
`user_states` and the reply texts sent, in order.  Unknown-user messages
get the restart message; the Idle state matches the two menu labels; each
answer-collecting step stores the text under its key (a store mutation that
persists even when `init_google_services` then raises into the outer
`except`), advances the state and sends the next prompt; the two terminal
steps delete the user's entry in a `finally` block, so their net store
effect is always deletion. -/
def handle_message (env : Env) (store : Store) (user_id : Nat)
    (message_text : String) : Store × List String :=
  match store user_id with
  | none => (store, [restartMsg])
  | some st =>
    match st.state with
    | none =>
      if message_text = "Generate Content" then
        if env.initExc then (store, [genericErrMsg])
        else (storeSet store user_id ⟨some AUDIENCE, st.data⟩, [audiencePrompt])
      else if message_text = "Use push-generator" then
        (storeSet store user_id ⟨some "awaiting_product", st.data⟩, [productPrompt])
      else (store, [])
    | some s =>
      if s = AUDIENCE then
        let d2 := dset st.data "audience" message_text
        if env.initExc then (storeSet store user_id ⟨st.state, d2⟩, [genericErrMsg])
        else (storeSet store user_id ⟨some LANGUAGE, d2⟩, [languagePrompt])
      else if s = LANGUAGE then
        let d2 := dset st.data "language" message_text
        if env.initExc then (storeSet store user_id ⟨st.state, d2⟩, [genericErrMsg])
        else (storeSet store user_id ⟨some COUNTRY, d2⟩, [countryPrompt])
      else if s = COUNTRY then
        let d2 := dset st.data "country" message_text
        if env.initExc then (storeSet store user_id ⟨st.state, d2⟩, [genericErrMsg])
        else (storeSet store user_id ⟨some TOPIC, d2⟩, [topicPrompt])
      else if s = TOPIC then
        let d2 := dset st.data "topic" message_text
        if env.initExc then (storeSet store user_id ⟨st.state, d2⟩, [genericErrMsg])
        else (storeSet store user_id ⟨some FORMAT, d2⟩, [formatPrompt])
      else if s = FORMAT then
        (storeDel store user_id, formatReplies env st.data message_text)
      else if s = "awaiting_product" then
        (storeSet store user_id ⟨some "awaiting_country", dset st.data "product" message_text⟩,
          [pushCountryPrompt])
      else if s = "awaiting_country" then
        (storeSet store user_id ⟨some "awaiting_language", dset st.data "country" message_text⟩,
          [pushLanguagePrompt])
      else if s = "awaiting_language" then
        (storeSet store user_id ⟨some "awaiting_link", dset st.data "language" message_text⟩,
          [pushLinkPrompt])
      else if s = "awaiting_link" then
        (storeSet store user_id ⟨some "awaiting_message", dset st.data "app_link" message_text⟩,
          [pushMessagePrompt])
      else if s = "awaiting_message" then
        (storeDel store user_id, pushReplies env st.data message_text)
      else (store, [])

/-- The answer key, next state and next prompt of each answer-collecting
(non-terminal) step of the two flows, read off the dispatch branches of
`handle_message`. -/
def stepTable : String → Option (String × String × String)
  | "AUDIENCE" => some ("audience", LANGUAGE, languagePrompt)
  | "LANGUAGE" => some ("language", COUNTRY, countryPrompt)
  | "COUNTRY" => some ("country", TOPIC, topicPrompt)
  | "TOPIC" => some ("topic", FORMAT, formatPrompt)
  | "awaiting_product" => some ("product", "awaiting_country", pushCountryPrompt)
  | "awaiting_country" => some ("country", "awaiting_language", pushLanguagePrompt)
  | "awaiting_language" => some ("language", "awaiting_link", pushLinkPrompt)
  | "awaiting_link" => some ("app_link", "awaiting_message", pushMessagePrompt)
  | _ => none

/-- The four answer-collecting steps of Flow A, on which
`init_google_services` is called after the answer is stored. -/
def flowACollectSteps : List String := [AUDIENCE, LANGUAGE, COUNTRY, TOPIC]

/-- Setting a key makes it readable back. -/
theorem dget_dset_self (d : Data) (k v : String) : dget (dset d k v) k = some v := by
  induction d with
  | nil => simp [dset, dget]
  | cons p rest ih =>
    obtain ⟨k2, v2⟩ := p
    by_cases h : k2 = k
    · simp [dset, h, dget]
    · simp [dset, h, dget, ih]

/-- Setting a key leaves every other key unchanged. -/
theorem dget_dset_ne (d : Data) (k v k2 : String) (h : k2 ≠ k) :
    dget (dset d k v) k2 = dget d k2 := by
  have hk : ¬(k = k2) := fun hh => h hh.symm
  induction d with
  | nil =>
    simp only [dset, dget]
    rw [if_neg hk]
  | cons p rest ih =>
    obtain ⟨k3, v3⟩ := p
    by_cases h3 : k3 = k
    · subst h3
      simp only [dset, if_pos rfl, dget]
      rw [if_neg hk, if_neg hk]
    · simp only [dset, if_neg h3, dget]
      rw [ih]

/-- The chunks concatenate back to the original character list. -/
theorem chunkList_flatten (l : List Char) : (chunkList l).flatten = l := by
  induction l using chunkList.induct with
  | case1 => simp [chunkList]
  | case2 c cs ih =>
    rw [chunkList]
    simp only [List.flatten_cons, ih, List.take_append_drop]

/-- The number of chunks is `ceil(length / 4096)`. -/
theorem chunkList_length (l : List Char) :
    (chunkList l).length = if l.length = 0 then 0 else (l.length + 4095) / 4096 := by
  induction l using chunkList.induct with
  | case1 => simp [chunkList]
  | case2 c cs ih =>
    have hne : ¬((c :: cs).length = 0) := by simp
    rw [if_neg hne, chunkList, List.length_cons]
    rcases le_or_lt (cs.length + 1) 4096 with hle | hlt
    · have hdrop : (c :: cs).drop 4096 = [] := by
        apply List.drop_eq_nil_of_le
        simpa using hle
      have h0 : chunkList [] = [] := by simp [chunkList]
      rw [hdrop, h0]
      simp only [List.length_nil, List.length_cons]
      omega
    · have hdne : ¬(((c :: cs).drop 4096).length = 0) := by
        simp only [List.length_drop, List.length_cons]
        omega
      rw [ih, if_neg hdne]
      simp only [List.length_drop, List.length_cons]
      omega

/-- Every chunk holds at most 4096 characters. -/
theorem chunkList_mem_length (l : List Char) (p : List Char) (hp : p ∈ chunkList l) :
    p.length ≤ 4096 := by
  induction l using chunkList.induct with
  | case1 => simp [chunkList] at hp
  | case2 c cs ih =>
    rw [chunkList] at hp
    rcases List.mem_cons.mp hp with h | h
    · subst h
      simp only [List.length_take]
      omega
    · exact ih h

/-- Concatenating strings built from character lists builds the joined
list. -/
theorem concatChunks_map_mk (ls : List (List Char)) :
    concatChunks (ls.map (fun l => String.mk l)) = String.mk ls.flatten := by
  induction ls with
  | nil => rfl
  | cons a rest ih =>
    simp only [List.map_cons, concatChunks, List.foldr_cons, List.flatten_cons]
    have h2 : concatChunks (rest.map (fun l => String.mk l)) = String.mk rest.flatten := ih
    simp only [concatChunks] at h2
    rw [h2]
    rfl

/-- Concatenating what `sendLong` sends reproduces the body. -/
theorem concatChunks_sendLong (s : String) : concatChunks (sendLong s) = s := by
  unfold sendLong
  by_cases h : s.length > 4096
  · rw [if_pos h, concatChunks_map_mk, chunkList_flatten]
  · rw [if_neg h]
    show s ++ "" = s
    exact String.append_empty s

/-- Lemma: `sendLong` sends one message for short bodies and `ceil(len/4096)`
chunks for long ones. -/
theorem sendLong_length (s : String) :
    (sendLong s).length = if 4096 < s.length then (s.length + 4095) / 4096 else 1 := by
  unfold sendLong
  by_cases h : s.length > 4096
  · rw [if_pos h, if_pos h, List.length_map, chunkList_length]
    have hlen : s.data.length = s.length := rfl
    have : ¬(s.data.length = 0) := by omega
    rw [if_neg this, hlen]
  · rw [if_neg h, if_neg h, List.length_singleton]

/-- An in-bounds `getD` is a member of the list. -/
theorem getD_mem_of_lt {α : Type} [Inhabited α] (l : List α) (i : Nat)
    (h : i < l.length) : l.getD i default ∈ l := by
  induction l generalizing i with
  | nil => simp at h
  | cons a rest ih =>
    cases i with
    | zero => simp [List.getD_cons_zero]
    | succ n =>
      rw [List.getD_cons_succ]
      exact List.mem_cons_of_mem a (ih n (by simpa using h))

/-- With all five answers present in the dict, the record predicate never
raises and computes the conjunction of the five equality tests. -/
theorem recMatches_eq (d : Data) (a l c t f : String)
    (ha : dget d "audience" = some a) (hl : dget d "language" = some l)
    (hc : dget d "country" = some c) (ht : dget d "topic" = some t)
    (hf : dget d "format" = some f) (r : ContentRecord) :
    recMatches d r = some (decide (r.audience = a) && decide (r.language = l) &&
      decide (r.country = c) && decide (r.topic = t) && decide (r.format = f)) := by
  unfold recMatches
  rw [ha, hl, hc, ht, hf]
  by_cases h1 : r.audience = a
  · by_cases h2 : r.language = l
    · by_cases h3 : r.country = c
      · by_cases h4 : r.topic = t
        · simp [h1, h2, h3, h4]
        · simp [h1, h2, h3, h4]
      · simp [h1, h2, h3]
    · simp [h1, h2]
  · simp [h1]

/-- With all five answers present, the list comprehension never raises and
equals a plain filter on the five-way equality predicate. -/
theorem matchList_eq_filter (d : Data) (a l c t f : String)
    (ha : dget d "audience" = some a) (hl : dget d "language" = some l)
    (hc : dget d "country" = some c) (ht : dget d "topic" = some t)
    (hf : dget d "format" = some f) (rs : List ContentRecord) :
    matchList d rs = some (rs.filter (fun r =>
      decide (r.audience = a) && decide (r.language = l) && decide (r.country = c) &&
      decide (r.topic = t) && decide (r.format = f))) := by
  induction rs with
  | nil => simp [matchList]
  | cons r rest ih =>
    rw [matchList, recMatches_eq d a l c t f ha hl hc ht hf r, ih, List.filter_cons]

/-- Claim C2: an outgoing response body longer than 4096 characters is
split into exactly `ceil(length/4096)` consecutive chunks, each of length
at most 4096, sent in order, and concatenating the chunks in order
reproduces the original body exactly; a body of length at most 4096 is
sent as a single message. -/
theorem C2_chunked_send (s : String) :
    concatChunks (sendLong s) = s ∧
    (∀ p ∈ sendLong s, p.length ≤ 4096) ∧
    (4096 < s.length → (sendLong s).length = (s.length + 4095) / 4096) ∧
    (s.length ≤ 4096 → sendLong s = [s]) := by
  refine ⟨concatChunks_sendLong s, ?_, ?_, ?_⟩
  · intro p hp
    unfold sendLong at hp
    by_cases h : s.length > 4096
    · rw [if_pos h] at hp
      obtain ⟨l2, hl2, rfl⟩ := List.mem_map.mp hp
      rw [String.length_mk]
      exact chunkList_mem_length _ _ hl2
    · rw [if_neg h] at hp
      have hps : p = s := by simpa using hp
      subst hps
      omega
  · intro h
    rw [sendLong_length s, if_pos h]
  · intro h
    unfold sendLong
    rw [if_neg (by omega)]

/-- Witness for C2: a 4100-character body is sent as two chunks whose
concatenation is the body. -/
theorem C2_chunked_send_witness :
    4096 < (String.mk (List.replicate 4100 'a')).length ∧
    (sendLong (String.mk (List.replicate 4100 'a'))).length = 2 ∧
    concatChunks (sendLong (String.mk (List.replicate 4100 'a'))) =
      String.mk (List.replicate 4100 'a') := by
  have hlen : (String.mk (List.replicate 4100 'a')).length = 4100 := by
    rw [String.length_mk, List.length_replicate]
  have h := C2_chunked_send (String.mk (List.replicate 4100 'a'))
  refine ⟨by omega, ?_, h.1⟩
  rw [h.2.2.1 (by omega), hlen]

/-- Claim C6: a free-text message from a user with no entry in the state
store gets the restart-instruction reply, and the whole store — so in
particular every other user's entry, and the absent entry itself — is
returned unchanged. -/
theorem C6_unknown_user (env : Env) (store : Store) (uid : Nat) (text : String)
    (h : store uid = none) :
    handle_message env store uid text = (store, [restartMsg]) := by
  unfold handle_message
  rw [h]

/-- Witness for C6: an empty store and user 7. -/
theorem C6_unknown_user_witness :
    (fun _ => none : Store) 7 = none ∧
    handle_message ⟨false, false, [], fun _ => none, 0, none⟩ (fun _ => none) 7 "hello" =
      ((fun _ => none : Store), [restartMsg]) :=
  ⟨rfl, C6_unknown_user ⟨false, false, [], fun _ => none, 0, none⟩ (fun _ => none) 7 "hello" rfl⟩

/-- Counterexample to claim C9 as stated: a record with an empty cell in
the requested column makes `""` one of the distinct values of that field
across all catalog records, yet `get_unique_values` returns a list without
it (here the empty list), because the truthiness filter drops it. -/
theorem C9_counterexample :
    get_unique_values false [⟨"", "x", "x", "x", "x", "t", none⟩] ContentRecord.audience = [] ∧
    "" ∈ ([⟨"", "x", "x", "x", "x", "t", none⟩] : List ContentRecord).map
        ContentRecord.audience := by
  constructor
  · rfl
  · simp

/-- Claim C9 (amended): `get_unique_values(fieldName)` returns the distinct
non-empty values of that field across all catalog records, sorted, with no
duplicates; if any error occurs during the fetch it returns an empty list
instead of raising. -/
theorem C9_unique_values (exc : Bool) (records : List ContentRecord)
    (col : ContentRecord → String) :
    (exc = true → get_unique_values exc records col = []) ∧
    (get_unique_values exc records col).Sorted (· ≤ ·) ∧
    (get_unique_values exc records col).Nodup ∧
    (exc = false → ∀ v : String,
      v ∈ get_unique_values exc records col ↔ v ≠ "" ∧ ∃ r ∈ records, col r = v) := by
  cases exc with
  | true =>
    refine ⟨fun _ => rfl, (by simp [get_unique_values]), (by simp [get_unique_values]), ?_⟩
    intro h
    cases h
  | false =>
    have he : get_unique_values false records col =
        List.insertionSort (· ≤ ·) (((records.map col).filter (fun v => v ≠ "")).dedup) := rfl
    refine ⟨fun h => (by cases h), ?_, ?_, ?_⟩
    · rw [he]
      exact List.sorted_insertionSort _ _
    · rw [he]
      exact (List.perm_insertionSort _ _).nodup_iff.mpr (List.nodup_dedup _)
    · intro _ v
      rw [he]
      simp only [List.mem_insertionSort, List.mem_dedup, List.mem_filter, List.mem_map,
        ne_eq, decide_not, Bool.not_eq_eq_eq_not, Bool.not_true, decide_eq_false_iff_not]
      tauto

/-- Witness for C9: the membership description instantiated on a
two-record catalog, and the error case on a fetch failure. -/
theorem C9_unique_values_witness :
    ("b" ∈ get_unique_values false
        [⟨"b", "l", "c", "t", "f", "x", none⟩, ⟨"a", "l", "c", "t", "f", "x", none⟩]
        ContentRecord.audience ↔
      "b" ≠ "" ∧ ∃ r ∈ ([⟨"b", "l", "c", "t", "f", "x", none⟩,
        ⟨"a", "l", "c", "t", "f", "x", none⟩] : List ContentRecord),
        ContentRecord.audience r = "b") ∧
    get_unique_values true [] ContentRecord.audience = [] :=
  ⟨(C9_unique_values false
      [⟨"b", "l", "c", "t", "f", "x", none⟩, ⟨"a", "l", "c", "t", "f", "x", none⟩]
      ContentRecord.audience).2.2.2 rfl "b",
    (C9_unique_values true [] ContentRecord.audience).1 rfl⟩

/-- Claim C10: `get_unique_values` excludes records whose value in the
requested column is empty, so the empty string never appears among the
choices offered to the user, for any catalog contents. -/
theorem C10_no_empty_value (exc : Bool) (records : List ContentRecord)
    (col : ContentRecord → String) :
    (get_unique_values exc records col).contains "" = false := by
  have h : "" ∉ get_unique_values exc records col := by
    cases exc with
    | true => simp [get_unique_values]
    | false =>
      have he : get_unique_values false records col =
          List.insertionSort (· ≤ ·) (((records.map col).filter (fun v => v ≠ "")).dedup) := rfl
      rw [he]
      simp only [List.mem_insertionSort, List.mem_dedup, List.mem_filter]
      rintro ⟨-, habs⟩
      simp at habs
  simpa using h

/-- Dispatch of a message for a user sitting at the FORMAT state: the
terminal Flow-A step runs, and the `finally` block deletes the entry. -/
theorem handle_at_format (env : Env) (store : Store) (uid : Nat) (text : String)
    (st : UserState) (hst : store uid = some st) (hstate : st.state = some FORMAT) :
    handle_message env store uid text =
      (storeDel store uid, formatReplies env st.data text) := by
  unfold handle_message
  simp only [hst, hstate]
  simp [AUDIENCE, LANGUAGE, COUNTRY, TOPIC, FORMAT]

/-- Dispatch of a message for a user sitting at the awaiting_message
state: the terminal Flow-B step runs, and the `finally` block deletes the
entry. -/
theorem handle_at_push (env : Env) (store : Store) (uid : Nat) (text : String)
    (st : UserState) (hst : store uid = some st)
    (hstate : st.state = some "awaiting_message") :
    handle_message env store uid text =
      (storeDel store uid, pushReplies env st.data text) := by
  unfold handle_message
  simp only [hst, hstate]
  simp [AUDIENCE, LANGUAGE, COUNTRY, TOPIC, FORMAT]

/-- Claim C4: processing a terminal step (Flow A FORMAT or Flow B
awaiting_message) always leaves the user's entry deleted from the state
store, whether the step succeeded, found no match, or raised. -/
theorem C4_terminal_deletes (env : Env) (store : Store) (uid : Nat) (text : String)
    (st : UserState) (hst : store uid = some st)
    (hterm : st.state = some FORMAT ∨ st.state = some "awaiting_message") :
    (handle_message env store uid text).1 uid = none := by
  rcases hterm with h | h
  · rw [handle_at_format env store uid text st hst h]
    simp [storeDel]
  · rw [handle_at_push env store uid text st hst h]
    simp [storeDel]

/-- Witness for C4: a user at FORMAT whose catalog fetch raises still
loses their entry. -/
theorem C4_terminal_deletes_witness :
    (fun u => if u = 0 then some ⟨some FORMAT, []⟩ else none : Store) 0 =
      some ⟨some FORMAT, []⟩ ∧
    (handle_message ⟨false, true, [], fun _ => none, 0, none⟩
        (fun u => if u = 0 then some ⟨some FORMAT, []⟩ else none) 0 "Image").1 0 = none :=
  ⟨rfl, C4_terminal_deletes ⟨false, true, [], fun _ => none, 0, none⟩
    (fun u => if u = 0 then some ⟨some FORMAT, []⟩ else none) 0 "Image"
    ⟨some FORMAT, []⟩ rfl (Or.inl rfl)⟩

/-- Claim C5: when the five collected answers match no catalog record, the
terminal Flow-A step sends the no-content message and the user's state is
deleted. -/
theorem C5_no_match (env : Env) (store : Store) (uid : Nat) (text : String)
    (st : UserState) (a l c t : String)
    (hinit : env.initExc = false) (hrec : env.recordsExc = false)
    (hst : store uid = some st) (hstate : st.state = some FORMAT)
    (ha : dget st.data "audience" = some a) (hl : dget st.data "language" = some l)
    (hc : dget st.data "country" = some c) (ht : dget st.data "topic" = some t)
    (hnone : ∀ r ∈ env.records, ¬(r.audience = a ∧ r.language = l ∧ r.country = c ∧
      r.topic = t ∧ r.format = text)) :
    (handle_message env store uid text).2 = [noContentMsg] ∧
    (handle_message env store uid text).1 uid = none := by
  rw [handle_at_format env store uid text st hst hstate]
  have ha2 : dget (dset st.data "format" text) "audience" = some a := by
    rw [dget_dset_ne _ _ _ _ (by decide)]
    exact ha
  have hl2 : dget (dset st.data "format" text) "language" = some l := by
    rw [dget_dset_ne _ _ _ _ (by decide)]
    exact hl
  have hc2 : dget (dset st.data "format" text) "country" = some c := by
    rw [dget_dset_ne _ _ _ _ (by decide)]
    exact hc
  have ht2 : dget (dset st.data "format" text) "topic" = some t := by
    rw [dget_dset_ne _ _ _ _ (by decide)]
    exact ht
  have hf2 : dget (dset st.data "format" text) "format" = some text :=
    dget_dset_self _ _ _
  have hfilter : env.records.filter (fun r =>
      decide (r.audience = a) && decide (r.language = l) && decide (r.country = c) &&
      decide (r.topic = t) && decide (r.format = text)) = [] := by
    rw [List.filter_eq_nil_iff]
    intro r hr
    have hnr := hnone r hr
    simp only [Bool.and_eq_true, decide_eq_true_eq, not_and]
    tauto
  have hfl : formatReplies env st.data text = [noContentMsg] := by
    unfold formatReplies
    rw [hinit, hrec]
    simp only [Bool.false_eq_true, if_false]
    rw [matchList_eq_filter _ a l c t text ha2 hl2 hc2 ht2 hf2, hfilter]
    rfl
  exact ⟨hfl, by simp [storeDel]⟩

/-- Witness for C5: a one-record catalog where the collected audience does
not match. -/
theorem C5_no_match_witness :
    (handle_message
        ⟨false, false, [⟨"A", "B", "C", "D", "E", "txt", none⟩], fun _ => none, 0, none⟩
        (fun u => if u = 0 then some ⟨some FORMAT,
          [("audience", "X"), ("language", "B"), ("country", "C"), ("topic", "D")]⟩
          else none) 0 "E").2 = [noContentMsg] ∧
    (handle_message
        ⟨false, false, [⟨"A", "B", "C", "D", "E", "txt", none⟩], fun _ => none, 0, none⟩
        (fun u => if u = 0 then some ⟨some FORMAT,
          [("audience", "X"), ("language", "B"), ("country", "C"), ("topic", "D")]⟩
          else none) 0 "E").1 0 = none :=
  C5_no_match
    ⟨false, false, [⟨"A", "B", "C", "D", "E", "txt", none⟩], fun _ => none, 0, none⟩
    (fun u => if u = 0 then some ⟨some FORMAT,
      [("audience", "X"), ("language", "B"), ("country", "C"), ("topic", "D")]⟩
      else none) 0 "E"
    ⟨some FORMAT, [("audience", "X"), ("language", "B"), ("country", "C"), ("topic", "D")]⟩
    "X" "B" "C" "D" rfl rfl rfl rfl rfl rfl rfl rfl (by decide)

/-- Claim C8: each answer-collecting (non-terminal) step of either flow
stores the incoming message text verbatim under that step's answer key —
without validating it against the offered choices — advances the current
step to the next step of the flow, sends the next prompt, and leaves all
previously collected answers unchanged. -/
theorem C8_nonterminal_step (env : Env) (store : Store) (uid : Nat) (text : String)
    (st : UserState) (s key next prompt : String)
    (hinit : env.initExc = false) (hst : store uid = some st) (hstate : st.state = some s)
    (htab : stepTable s = some (key, next, prompt)) :
    (handle_message env store uid text).1 uid = some ⟨some next, dset st.data key text⟩ ∧
    (handle_message env store uid text).2 = [prompt] ∧
    dget (dset st.data key text) key = some text ∧
    (∀ k, k ≠ key → dget (dset st.data key text) k = dget st.data k) := by
  have hmain : handle_message env store uid text =
      (storeSet store uid ⟨some next, dset st.data key text⟩, [prompt]) := by
    unfold stepTable at htab
    split at htab
    all_goals
      first
        | exact Option.noConfusion htab
        | (injection htab with h2
           injection h2 with hk h3
           injection h3 with hn hp
           subst_vars
           unfold handle_message
           simp only [hst, hstate]
           simp [AUDIENCE, LANGUAGE, COUNTRY, TOPIC, FORMAT, hinit])
  rw [hmain]
  exact ⟨(by simp [storeSet]), rfl, dget_dset_self _ _ _,
    fun k hk => dget_dset_ne _ _ _ _ hk⟩

/-- Witness for C8: a user at the COUNTRY step sending "USA". -/
theorem C8_nonterminal_step_witness :
    (handle_message ⟨false, false, [], fun _ => none, 0, none⟩
        (fun u => if u = 1 then some ⟨some COUNTRY, [("audience", "A"), ("language", "L")]⟩
          else none) 1 "USA").1 1 =
      some ⟨some TOPIC, dset [("audience", "A"), ("language", "L")] "country" "USA"⟩ ∧
    (handle_message ⟨false, false, [], fun _ => none, 0, none⟩
        (fun u => if u = 1 then some ⟨some COUNTRY, [("audience", "A"), ("language", "L")]⟩
          else none) 1 "USA").2 = [topicPrompt] ∧
    dget (dset [("audience", "A"), ("language", "L")] "country" "USA") "country" =
      some "USA" ∧
    (∀ k, k ≠ "country" →
      dget (dset [("audience", "A"), ("language", "L")] "country" "USA") k =
        dget [("audience", "A"), ("language", "L")] k) :=
  C8_nonterminal_step ⟨false, false, [], fun _ => none, 0, none⟩
    (fun u => if u = 1 then some ⟨some COUNTRY, [("audience", "A"), ("language", "L")]⟩
      else none) 1 "USA"
    ⟨some COUNTRY, [("audience", "A"), ("language", "L")]⟩
    COUNTRY "country" TOPIC topicPrompt rfl rfl rfl rfl

/-- Counterexample to claim C3 as stated: a user at the AUDIENCE step with
an empty answer dict sends "Teens" while the catalog init raises; the
answer is stored into the global dict before the exception, so the state
after handling is NOT equal to the state before. -/
theorem C3_counterexample :
    (handle_message ⟨true, false, [], fun _ => none, 0, none⟩
        (fun u => if u = 0 then some ⟨some AUDIENCE, []⟩ else none) 0 "Teens").1 0 ≠
      some ⟨some AUDIENCE, []⟩ := by
  decide

/-- Claim C3 (amended): when an exception occurs during a non-terminal
Flow-A step, the current step and all previously collected answers are
unchanged, but the answer for the current step has already been stored
verbatim under that step's key before the failure point. -/
theorem C3_nonterminal_failure (env : Env) (store : Store) (uid : Nat) (text : String)
    (st : UserState) (s key next prompt : String)
    (hinit : env.initExc = true) (hst : store uid = some st) (hstate : st.state = some s)
    (hs : s ∈ flowACollectSteps) (htab : stepTable s = some (key, next, prompt)) :
    (handle_message env store uid text).1 uid = some ⟨some s, dset st.data key text⟩ ∧
    (handle_message env store uid text).2 = [genericErrMsg] ∧
    (∀ k, k ≠ key → dget (dset st.data key text) k = dget st.data k) := by
  have hmain : handle_message env store uid text =
      (storeSet store uid ⟨some s, dset st.data key text⟩, [genericErrMsg]) := by
    simp only [flowACollectSteps, AUDIENCE, LANGUAGE, COUNTRY, TOPIC, List.mem_cons,
      List.not_mem_nil, or_false] at hs
    rcases hs with rfl | rfl | rfl | rfl
    · have he : stepTable "AUDIENCE" = some ("audience", LANGUAGE, languagePrompt) := rfl
      rw [he] at htab
      injection htab with h2
      injection h2 with hk h3
      subst hk
      unfold handle_message
      simp only [hst, hstate]
      simp [AUDIENCE, LANGUAGE, COUNTRY, TOPIC, FORMAT, hinit, hstate]
    · have he : stepTable "LANGUAGE" = some ("language", COUNTRY, countryPrompt) := rfl
      rw [he] at htab
      injection htab with h2
      injection h2 with hk h3
      subst hk
      unfold handle_message
      simp only [hst, hstate]
      simp [AUDIENCE, LANGUAGE, COUNTRY, TOPIC, FORMAT, hinit, hstate]
    · have he : stepTable "COUNTRY" = some ("country", TOPIC, topicPrompt) := rfl
      rw [he] at htab
      injection htab with h2
      injection h2 with hk h3
      subst hk
      unfold handle_message
      simp only [hst, hstate]
      simp [AUDIENCE, LANGUAGE, COUNTRY, TOPIC, FORMAT, hinit, hstate]
    · have he : stepTable "TOPIC" = some ("topic", FORMAT, formatPrompt) := rfl
      rw [he] at htab
      injection htab with h2
      injection h2 with hk h3
      subst hk
      unfold handle_message
      simp only [hst, hstate]
      simp [AUDIENCE, LANGUAGE, COUNTRY, TOPIC, FORMAT, hinit, hstate]
  rw [hmain]
  exact ⟨(by simp [storeSet]), rfl, fun k hk => dget_dset_ne _ _ _ _ hk⟩

/-- Witness for C3 (amended): the AUDIENCE step with a failing catalog
init keeps the step and gains only the audience answer. -/
theorem C3_nonterminal_failure_witness :
    (handle_message ⟨true, false, [], fun _ => none, 0, none⟩
        (fun u => if u = 0 then some ⟨some AUDIENCE, []⟩ else none) 0 "Teens").1 0 =
      some ⟨some AUDIENCE, dset [] "audience" "Teens"⟩ ∧
    (handle_message ⟨true, false, [], fun _ => none, 0, none⟩
        (fun u => if u = 0 then some ⟨some AUDIENCE, []⟩ else none) 0 "Teens").2 =
      [genericErrMsg] ∧
    (∀ k, k ≠ "audience" → dget (dset [] "audience" "Teens") k = dget [] k) :=
  C3_nonterminal_failure ⟨true, false, [], fun _ => none, 0, none⟩
    (fun u => if u = 0 then some ⟨some AUDIENCE, []⟩ else none) 0 "Teens"
    ⟨some AUDIENCE, []⟩ AUDIENCE "audience" LANGUAGE languagePrompt
    rfl rfl rfl (by decide) rfl

/-- Claim C1: with the five answers collected and at least one catalog
record whose five facet fields equal them, the terminal Flow-A step
replies with one of the matching records: the returned record's facets
equal the answers, and its text appears in the reply prefixed by
"Here's your content:". -/
theorem C1_flowA_terminal (env : Env) (store : Store) (uid : Nat) (text : String)
    (st : UserState) (a l c t : String)
    (hinit : env.initExc = false) (hrec : env.recordsExc = false)
    (hst : store uid = some st) (hstate : st.state = some FORMAT)
    (ha : dget st.data "audience" = some a) (hl : dget st.data "language" = some l)
    (hc : dget st.data "country" = some c) (ht : dget st.data "topic" = some t)
    (hex : ∃ r0 ∈ env.records, r0.audience = a ∧ r0.language = l ∧ r0.country = c ∧
      r0.topic = t ∧ r0.format = text) :
    ∃ r ∈ env.records, r.audience = a ∧ r.language = l ∧ r.country = c ∧
      r.topic = t ∧ r.format = text ∧
      (handle_message env store uid text).2 = sendLong (contentResponse env r) ∧
      ∃ suffix : String,
        concatChunks ((handle_message env store uid text).2) =
          "Here's your content:\n\n" ++ r.text ++ suffix := by
  rw [handle_at_format env store uid text st hst hstate]
  have ha2 : dget (dset st.data "format" text) "audience" = some a := by
    rw [dget_dset_ne _ _ _ _ (by decide)]
    exact ha
  have hl2 : dget (dset st.data "format" text) "language" = some l := by
    rw [dget_dset_ne _ _ _ _ (by decide)]
    exact hl
  have hc2 : dget (dset st.data "format" text) "country" = some c := by
    rw [dget_dset_ne _ _ _ _ (by decide)]
    exact hc
  have ht2 : dget (dset st.data "format" text) "topic" = some t := by
    rw [dget_dset_ne _ _ _ _ (by decide)]
    exact ht
  have hf2 : dget (dset st.data "format" text) "format" = some text :=
    dget_dset_self _ _ _
  have hml : matchList (dset st.data "format" text) env.records =
      some (env.records.filter (fun r =>
        decide (r.audience = a) && decide (r.language = l) && decide (r.country = c) &&
        decide (r.topic = t) && decide (r.format = text))) :=
    matchList_eq_filter _ a l c t text ha2 hl2 hc2 ht2 hf2 env.records
  obtain ⟨r0, hr0mem, hr0a, hr0l, hr0c, hr0t, hr0f⟩ := hex
  have hr0filter : r0 ∈ env.records.filter (fun r =>
      decide (r.audience = a) && decide (r.language = l) && decide (r.country = c) &&
      decide (r.topic = t) && decide (r.format = text)) :=
    List.mem_filter.mpr ⟨hr0mem, (by simp [hr0a, hr0l, hr0c, hr0t, hr0f])⟩
  have hne : env.records.filter (fun r =>
      decide (r.audience = a) && decide (r.language = l) && decide (r.country = c) &&
      decide (r.topic = t) && decide (r.format = text)) ≠ [] :=
    List.ne_nil_of_mem hr0filter
  have hpos : 0 < (env.records.filter (fun r =>
      decide (r.audience = a) && decide (r.language = l) && decide (r.country = c) &&
      decide (r.topic = t) && decide (r.format = text))).length :=
    List.length_pos.mpr hne
  have hidx := Nat.mod_lt env.choice hpos
  have hcmem := getD_mem_of_lt _ _ hidx
  have hcprops := List.mem_filter.mp hcmem
  have hcP := hcprops.2
  simp only [Bool.and_eq_true, decide_eq_true_eq] at hcP
  obtain ⟨⟨⟨⟨hca, hcl⟩, hcc⟩, hct⟩, hcf⟩ := hcP
  have hie : (env.records.filter (fun r =>
      decide (r.audience = a) && decide (r.language = l) && decide (r.country = c) &&
      decide (r.topic = t) && decide (r.format = text))).isEmpty = false := by
    simp [List.isEmpty_iff, hne]
  have hreplies : formatReplies env st.data text =
      sendLong (contentResponse env ((env.records.filter (fun r =>
        decide (r.audience = a) && decide (r.language = l) && decide (r.country = c) &&
        decide (r.topic = t) && decide (r.format = text))).getD
          (env.choice % (env.records.filter (fun r =>
            decide (r.audience = a) && decide (r.language = l) && decide (r.country = c) &&
            decide (r.topic = t) && decide (r.format = text))).length) default)) := by
    unfold formatReplies
    rw [hinit, hrec]
    simp only [Bool.false_eq_true, if_false, hml, hie]
  refine ⟨_, hcprops.1, hca, hcl, hcc, hct, hcf, hreplies, ?_⟩
  have hcc2 : concatChunks ((storeDel store uid, formatReplies env st.data text).2) =
      contentResponse env ((env.records.filter (fun r =>
        decide (r.audience = a) && decide (r.language = l) && decide (r.country = c) &&
        decide (r.topic = t) && decide (r.format = text))).getD
          (env.choice % (env.records.filter (fun r =>
            decide (r.audience = a) && decide (r.language = l) && decide (r.country = c) &&
            decide (r.topic = t) && decide (r.format = text))).length) default) := by
    show concatChunks (formatReplies env st.data text) = _
    rw [hreplies, concatChunks_sendLong]
  rw [hcc2]
  rcases him : ((env.records.filter (fun r =>
      decide (r.audience = a) && decide (r.language = l) && decide (r.country = c) &&
      decide (r.topic = t) && decide (r.format = text))).getD
        (env.choice % (env.records.filter (fun r =>
          decide (r.audience = a) && decide (r.language = l) && decide (r.country = c) &&
          decide (r.topic = t) && decide (r.format = text))).length) default).image_id
    with _ | fid
  · refine ⟨"", ?_⟩
    simp only [contentResponse, him]
    exact (String.append_empty _).symm
  · by_cases hfid : fid = ""
    · refine ⟨"", ?_⟩
      simp only [contentResponse, him]
      rw [if_pos hfid]
      exact (String.append_empty _).symm
    · rcases hlink : env.driveLink fid with _ | link
      · refine ⟨"", ?_⟩
        simp only [contentResponse, him, hlink]
        rw [if_neg hfid]
        exact (String.append_empty _).symm
      · refine ⟨"\n\nImage: " ++ link, ?_⟩
        simp only [contentResponse, him, hlink]
        rw [if_neg hfid]
        exact String.append_assoc _ _ _

/-- Witness for C1: a one-record catalog matched exactly by the collected
answers "Teens"/"English"/"USA"/"Fitness" and format "Image". -/
theorem C1_flowA_terminal_witness :
    ∃ r ∈ ([⟨"Teens", "English", "USA", "Fitness", "Image", "Hello", none⟩] :
        List ContentRecord),
      r.audience = "Teens" ∧ r.language = "English" ∧ r.country = "USA" ∧
      r.topic = "Fitness" ∧ r.format = "Image" ∧
      (handle_message
          ⟨false, false, [⟨"Teens", "English", "USA", "Fitness", "Image", "Hello", none⟩],
            fun _ => none, 0, none⟩
          (fun u => if u = 0 then some ⟨some FORMAT,
            [("audience", "Teens"), ("language", "English"), ("country", "USA"),
              ("topic", "Fitness")]⟩ else none) 0 "Image").2 =
        sendLong (contentResponse
          ⟨false, false, [⟨"Teens", "English", "USA", "Fitness", "Image", "Hello", none⟩],
            fun _ => none, 0, none⟩ r) ∧
      ∃ suffix : String,
        concatChunks ((handle_message
            ⟨false, false, [⟨"Teens", "English", "USA", "Fitness", "Image", "Hello", none⟩],
              fun _ => none, 0, none⟩
            (fun u => if u = 0 then some ⟨some FORMAT,
              [("audience", "Teens"), ("language", "English"), ("country", "USA"),
                ("topic", "Fitness")]⟩ else none) 0 "Image").2) =
          "Here's your content:\n\n" ++ r.text ++ suffix :=
  C1_flowA_terminal
    ⟨false, false, [⟨"Teens", "English", "USA", "Fitness", "Image", "Hello", none⟩],
      fun _ => none, 0, none⟩
    (fun u => if u = 0 then some ⟨some FORMAT,
      [("audience", "Teens"), ("language", "English"), ("country", "USA"),
        ("topic", "Fitness")]⟩ else none) 0 "Image"
    ⟨some FORMAT, [("audience", "Teens"), ("language", "English"), ("country", "USA"),
      ("topic", "Fitness")]⟩
    "Teens" "English" "USA" "Fitness"
    rfl rfl rfl rfl rfl rfl rfl rfl (by decide)

/-- Claim C7: a failed external generation call makes
`generate_push_notifications` return `None`; the terminal Flow-B step then
sends the fallback "couldn't generate" message and removes the user's
state. -/
theorem C7_generation_failure (o : GenOutcome) (env : Env) (store : Store) (uid : Nat)
    (text : String) (st : UserState) (p c l k : String)
    (ho : o = GenOutcome.requestError ∨ o = GenOutcome.otherError)
    (hgen : env.genResult = generate_push_notifications o)
    (hst : store uid = some st) (hstate : st.state = some "awaiting_message")
    (hp : dget st.data "product" = some p) (hc : dget st.data "country" = some c)
    (hl : dget st.data "language" = some l) (hk : dget st.data "app_link" = some k) :
    generate_push_notifications o = none ∧
    (handle_message env store uid text).2 = [genWaitMsg, genFailMsg] ∧
    (handle_message env store uid text).1 uid = none := by
  have hnone : generate_push_notifications o = none := by
    rcases ho with rfl | rfl <;> rfl
  rw [handle_at_push env store uid text st hst hstate]
  have h1 : dget (dset st.data "message" text) "product" = some p := by
    rw [dget_dset_ne _ _ _ _ (by decide)]
    exact hp
  have h2 : dget (dset st.data "message" text) "country" = some c := by
    rw [dget_dset_ne _ _ _ _ (by decide)]
    exact hc
  have h3 : dget (dset st.data "message" text) "language" = some l := by
    rw [dget_dset_ne _ _ _ _ (by decide)]
    exact hl
  have h4 : dget (dset st.data "message" text) "app_link" = some k := by
    rw [dget_dset_ne _ _ _ _ (by decide)]
    exact hk
  have hrep : pushReplies env st.data text = [genWaitMsg, genFailMsg] := by
    unfold pushReplies
    simp only [h1, h2, h3, h4, hgen, hnone]
  exact ⟨hnone, hrep, (by simp [storeDel])⟩

/-- Witness for C7: a network error during generation for a user whose
five Flow-B answers are collected. -/
theorem C7_generation_failure_witness :
    generate_push_notifications GenOutcome.requestError = none ∧
    (handle_message ⟨false, false, [], fun _ => none, 0, none⟩
        (fun u => if u = 0 then some ⟨some "awaiting_message",
          [("product", "P"), ("country", "C"), ("language", "L"), ("app_link", "K")]⟩
          else none) 0 "msg").2 = [genWaitMsg, genFailMsg] ∧
    (handle_message ⟨false, false, [], fun _ => none, 0, none⟩
        (fun u => if u = 0 then some ⟨some "awaiting_message",
          [("product", "P"), ("country", "C"), ("language", "L"), ("app_link", "K")]⟩
          else none) 0 "msg").1 0 = none :=
  C7_generation_failure GenOutcome.requestError
    ⟨false, false, [], fun _ => none, 0, none⟩
    (fun u => if u = 0 then some ⟨some "awaiting_message",
      [("product", "P"), ("country", "C"), ("language", "L"), ("app_link", "K")]⟩
      else none) 0 "msg"
    ⟨some "awaiting_message",
      [("product", "P"), ("country", "C"), ("language", "L"), ("app_link", "K")]⟩
    "P" "C" "L" "K"
    (Or.inl rfl) rfl rfl rfl rfl rfl rfl rfl

end TextBot
